import Mathlib

/-!
Shallow embedding of `src/backend/main.py` (Catalogo IPS - Auth API).

The backend is a FastAPI application over a Supabase client.  We model the
external identity-and-database service (Supabase) as an explicit state:
a list of auth accounts, a `profiles` table held as a list of rows, plus a
fresh-id counter, a timestamp counter for the server-assigned `created_at`
column, and a set of account ids for which `auth.admin.delete_user` raises
(so that the try/except swallow in `delete_profile` is observable).

Each HTTP handler becomes a function
`Env → <payload> → SupabaseState → Except HTTPException <resp> × SupabaseState`,
where `Env` carries the two environment secrets read by `get_supabase`.
Python truthiness of optional strings (`if payload.id:` is false for both
`None` and `""`) is modelled by `truthy`.
-/

namespace CatalogoIPS

/-- Python truthiness of an optional string: `None` and `""` are falsy. -/
def truthy : Option String → Bool
  | none => false
  | some s => !s.isEmpty

/-- The value a truthy optional string carries (`""` when absent). -/
def optVal (o : Option String) : String := o.getD ""

/-- `fastapi.HTTPException`: a status code and a detail message. -/
structure HTTPException where
  status_code : Nat
  detail : String
deriving DecidableEq, Repr

/-- The two environment variables read by `get_supabase`. -/
structure Env where
  supabase_url : Option String
  supabase_service_role_key : Option String
deriving DecidableEq, Repr

/-- `get_supabase`: raises a 500 `HTTPException` when either secret is unset
or empty (`if not url or not key`), otherwise yields a client (modelled `Unit`;
`create_client` performs no external call). -/
def get_supabase (env : Env) : Except HTTPException Unit :=
  if !truthy env.supabase_url || !truthy env.supabase_service_role_key then
    .error ⟨500, "Configure SUPABASE_URL e SUPABASE_SERVICE_ROLE_KEY"⟩
  else .ok ()

/-- An identity-provider (Supabase auth) account. -/
structure AuthAccount where
  id : String
  email : String
deriving DecidableEq, Repr

/-- A row of the `profiles` table (columns from the upsert in `register`,
plus the server-assigned `created_at`). -/
structure Profile where
  id : String
  email : String
  full_name : String
  person_type : String
  country : Option String
  state : Option String
  city : Option String
  cpf_cnpj : Option String
  phone_area : Option String
  phone_number : Option String
  device_fingerprint : String
  status : String
  created_at : Nat
deriving DecidableEq, Repr

/-- State of the external Supabase service.  `nextId` feeds fresh account
ids, `nextTime` feeds the server-assigned `created_at` of inserted rows, and
`deleteFails` is the set of account ids for which `auth.admin.delete_user`
raises an exception (`delete_profile` swallows it). -/
structure SupabaseState where
  accounts : List AuthAccount
  nextId : Nat
  profiles : List Profile
  nextTime : Nat
  deleteFails : List String
deriving DecidableEq, Repr

/-- `supabase.auth.admin.get_user_by_email`: first account with the email. -/
def getUserByEmail (st : SupabaseState) (email : String) : Option AuthAccount :=
  st.accounts.find? (fun a => a.email == email)

/-- `supabase.auth.admin.create_user`: a fresh account id. -/
def freshId (n : Nat) : String := "uid-" ++ toString n

/-- `supabase.auth.admin.create_user({"email": ..., "email_confirm": True, ...})`. -/
def createUser (st : SupabaseState) (email : String) : AuthAccount × SupabaseState :=
  let a : AuthAccount := ⟨freshId st.nextId, email⟩
  (a, { st with accounts := st.accounts ++ [a], nextId := st.nextId + 1 })

/-- `Registration` request model (pydantic `BaseModel`). -/
structure Registration where
  email : String
  full_name : String
  person_type : String
  country : Option String := none
  state : Option String := none
  city : Option String := none
  cpf_cnpj : Option String := none
  phone_area : Option String := none
  phone_number : Option String := none
  device_fingerprint : String
deriving DecidableEq, Repr

/-- The row dictionary passed to `supabase.table("profiles").upsert(...)` in
`register`: all payload columns plus `"status": "pending"`. -/
def registrationRow (payload : Registration) (user_id : String) (created : Nat) : Profile :=
  { id := user_id
    email := payload.email
    full_name := payload.full_name
    person_type := payload.person_type
    country := payload.country
    state := payload.state
    city := payload.city
    cpf_cnpj := payload.cpf_cnpj
    phone_area := payload.phone_area
    phone_number := payload.phone_number
    device_fingerprint := payload.device_fingerprint
    status := "pending"
    created_at := created }

/-- `upsert` keyed on the primary key `id`: update the columns of an existing
row with that id (the server-assigned `created_at` keeps its value), or insert
a new row with a fresh `created_at`.  Returns the written row and new state. -/
def upsertProfile (st : SupabaseState) (payload : Registration) (user_id : String) :
    Profile × SupabaseState :=
  match st.profiles.find? (fun r => r.id == user_id) with
  | some old =>
      let newRow := registrationRow payload user_id old.created_at
      (newRow,
       { st with profiles := st.profiles.map (fun r => if r.id == user_id then newRow else r) })
  | none =>
      let newRow := registrationRow payload user_id st.nextTime
      (newRow, { st with profiles := st.profiles ++ [newRow], nextTime := st.nextTime + 1 })

/-- Response of `POST /auth/register`: `{"ok": True, "user_id": ..., "profile": row.data}`. -/
structure RegisterResp where
  ok : Bool
  user_id : String
  profile : List Profile
deriving DecidableEq, Repr

/-- `register` (`POST /auth/register`): look up the auth account by email,
create one when absent, then upsert the profile row keyed by the account id
with `status = "pending"`. -/
def register (env : Env) (payload : Registration) (st : SupabaseState) :
    Except HTTPException RegisterResp × SupabaseState :=
  match get_supabase env with
  | .error ex => (.error ex, st)
  | .ok _ =>
    match getUserByEmail st payload.email with
    | some a =>
        let pr := upsertProfile st payload a.id
        (.ok ⟨true, a.id, [pr.1]⟩, pr.2)
    | none =>
        let ac := createUser st payload.email
        let pr := upsertProfile ac.2 payload ac.1.id
        (.ok ⟨true, ac.1.id, [pr.1]⟩, pr.2)

/-- `GET /health`: `return {"ok": True}`.  The handler has no
`Depends(get_supabase)` dependency, so it takes the environment only to state
that it ignores it. -/
def health (_env : Env) : Except HTTPException Bool :=
  .ok true

/-- Case-insensitive substring test on character lists: does `needle` occur
as a contiguous run inside `hay`? -/
def substrIn (needle : List Char) : List Char → Bool
  | [] => needle.isEmpty
  | c :: t => needle.isPrefixOf (c :: t) || substrIn needle t

/-- The characters of a string lowercased (`str.lower()`). -/
def lowerChars (s : String) : List Char := s.toList.map Char.toLower

/-- PostgREST `ilike` with pattern `%search%` on a non-null text column:
case-insensitive substring match. -/
def ilikeContains (field : String) (search : String) : Bool :=
  substrIn (lowerChars search) (lowerChars field)

/-- `ilike` on a nullable column: SQL `NULL ILIKE p` is not true, so a null
field never matches. -/
def ilikeOpt (field : Option String) (search : String) : Bool :=
  match field with
  | none => false
  | some s => ilikeContains s search

/-- The `or_` filter built in `list_profiles`:
`full_name.ilike.%s%`, `email.ilike.%s%`, `cpf_cnpj.ilike.%s%`, `city.ilike.%s%`. -/
def searchMatch (search : String) (r : Profile) : Bool :=
  ilikeContains r.full_name search || ilikeContains r.email search ||
    ilikeOpt r.cpf_cnpj search || ilikeOpt r.city search

/-- `if status and status.lower() != "all"`: the status filter is applied
only for a non-empty status parameter different from `all` case-insensitively. -/
def statusFilterApplies : Option String → Bool
  | none => false
  | some s => !s.isEmpty && lowerChars s != "all".toList

/-- The accumulated row filter of the `list_profiles` query: the `eq` status
filter (when applied) conjoined with the `or_` search filter (when `search`
is truthy). -/
def rowKeep (status search : Option String) (r : Profile) : Bool :=
  (if statusFilterApplies status then r.status == optVal status else true) &&
    (if truthy search then searchMatch (optVal search) r else true)

/-- `.order("created_at", desc=False)`. -/
def createdLE : Profile → Profile → Prop := fun a b => a.created_at ≤ b.created_at

instance : DecidableRel createdLE := fun a b => Nat.decLe a.created_at b.created_at

instance : IsTotal Profile createdLE := ⟨fun a b => Nat.le_total a.created_at b.created_at⟩

instance : IsTrans Profile createdLE := ⟨fun _ _ _ h1 h2 => Nat.le_trans h1 h2⟩

/-- `list_profiles` (`GET /admin/profiles`): select all rows, order by
`created_at` ascending, optionally filter by exact status and by the
four-field case-insensitive search. -/
def list_profiles (env : Env) (status search : Option String) (st : SupabaseState) :
    Except HTTPException (List Profile) × SupabaseState :=
  match get_supabase env with
  | .error ex => (.error ex, st)
  | .ok _ =>
      (.ok (List.insertionSort createdLE (st.profiles.filter (rowKeep status search))), st)

/-- The row filter of `approve`/`block`/`delete_profile`: `eq("id", ...)` when
`payload.id` is truthy, conjoined with `eq("email", ...)` when `payload.email`
is truthy. -/
def matchesReq (i e : Option String) (r : Profile) : Bool :=
  (if truthy i then r.id == optVal i else true) &&
    (if truthy e then r.email == optVal e else true)

/-- `update({"status": s})` applied to one row. -/
def setStatus (s : String) (r : Profile) : Profile := { r with status := s }

/-- Common body of `approve` and `block`: update `status` to `newStatus` on
the rows matched by the id/email filter and return the updated rows. -/
def updateStatusOp (newStatus : String) (noIdMsg : String) (env : Env)
    (i e : Option String) (st : SupabaseState) :
    Except HTTPException (List Profile) × SupabaseState :=
  match get_supabase env with
  | .error ex => (.error ex, st)
  | .ok _ =>
    if !truthy i && !truthy e then
      (.error ⟨400, noIdMsg⟩, st)
    else
      let updated := (st.profiles.filter (matchesReq i e)).map (setStatus newStatus)
      (.ok updated,
       { st with profiles :=
          st.profiles.map (fun r => if matchesReq i e r then setStatus newStatus r else r) })

/-- `approve` (`POST /admin/approve`). -/
def approve (env : Env) (i e : Option String) (st : SupabaseState) :
    Except HTTPException (List Profile) × SupabaseState :=
  updateStatusOp "approved" "Informe id ou email para aprovar." env i e st

/-- `block` (`POST /admin/block`). -/
def block (env : Env) (i e : Option String) (st : SupabaseState) :
    Except HTTPException (List Profile) × SupabaseState :=
  updateStatusOp "block" "Informe id ou email para bloquear." env i e st

/-- The id-resolution step of `delete_profile`: `user_id = payload.id`, and
when that is falsy and `payload.email` is truthy, a
`select("id").eq("email", ...).maybe_single()` lookup.  `maybe_single` yields
no data for zero matching rows and raises (caught by the outer handler as a
400) when more than one row matches; the guard
`if lookup.data and lookup.data.get("id")` keeps `user_id` unset for a falsy
looked-up id. -/
def resolveUserId (i e : Option String) (st : SupabaseState) :
    Except Unit (Option String) :=
  if !truthy i && truthy e then
    match st.profiles.filter (fun r => r.email == optVal e) with
    | [] => .ok i
    | [r] => if !r.id.isEmpty then .ok (some r.id) else .ok i
    | _ :: _ :: _ => .error ()
  else .ok i

/-- `delete_profile` (`POST /admin/delete`): resolve the target account id,
delete the matching profile rows, then attempt
`supabase.auth.admin.delete_user(user_id)` inside `try/except: pass`, and
return the deleted rows. -/
def delete_profile (env : Env) (i e : Option String) (st : SupabaseState) :
    Except HTTPException (List Profile) × SupabaseState :=
  match get_supabase env with
  | .error ex => (.error ex, st)
  | .ok _ =>
    if !truthy i && !truthy e then
      (.error ⟨400, "Informe id ou email para excluir."⟩, st)
    else
      match resolveUserId i e st with
      | .error _ =>
          (.error ⟨400, "JSON object requested, multiple (or no) rows returned"⟩, st)
      | .ok user_id =>
          let deleted := st.profiles.filter (matchesReq i e)
          let st1 := { st with profiles := st.profiles.filter (fun r => !matchesReq i e r) }
          let st2 :=
            if truthy user_id then
              let uid := optVal user_id
              if st1.deleteFails.contains uid then st1
              else { st1 with accounts := st1.accounts.filter (fun a => a.id != uid) }
            else st1
          (.ok deleted, st2)

/-- Rows carried by a successful list/update/delete response (empty for an
error response). -/
def respRows : Except HTTPException (List Profile) → List Profile
  | .ok l => l
  | .error _ => []

/-- The `user_id` of a successful register response. -/
def regUid : Except HTTPException RegisterResp → Option String
  | .ok r => some r.user_id
  | .error _ => none

/-- The statuses of the profile rows in a successful register response. -/
def regProfileStatus : Except HTTPException RegisterResp → List String
  | .ok r => r.profile.map (fun p => p.status)
  | .error _ => []

/-- Boolean check that a row list is ordered by `created_at` ascending. -/
def sortedByCreated : List Profile → Bool
  | [] => true
  | [_] => true
  | a :: b :: t => (decide (a.created_at ≤ b.created_at)) && sortedByCreated (b :: t)

/-- Replace the set of auth-deletion failures of a state. -/
def setFails (st : SupabaseState) (f : List String) : SupabaseState :=
  { st with deleteFails := f }

/-- Sample configured environment. -/
def envOk : Env := ⟨some "http://supabase.local", some "service-key"⟩

/-- Sample unconfigured environment (both secrets unset). -/
def envBad : Env := ⟨none, none⟩

/-- Sample empty service state. -/
def stEmpty : SupabaseState := ⟨[], 0, [], 0, []⟩

/-- Sample registration payload. -/
def regAna : Registration :=
  { email := "a@x.com", full_name := "Ana Silva", person_type := "pf",
    device_fingerprint := "f1" }

/-! ## C10 — the health endpoint is a constant function -/

/-- C10: `GET /health` returns `{ok: true}` in every environment, including
one where both external-service secrets are unset: it has no
`get_supabase` dependency and performs no external call. -/
theorem health_constant (env : Env) : health env = .ok true := rfl

/-! ## C9 — missing configuration yields a 500 before any external call -/

/-- C9: for each of the five service-using operations (`register`,
`list_profiles`, `approve`, `block`, `delete_profile`), when either required
external-service credential is unset or empty the request fails with the 500
`HTTPException` instructing to set the missing values, and the service state
is returned untouched (no external call is made). -/
theorem config_missing_500 (env : Env) (st : SupabaseState) (p : Registration)
    (status search i e : Option String)
    (h : truthy env.supabase_url = false ∨ truthy env.supabase_service_role_key = false) :
    register env p st =
      (.error ⟨500, "Configure SUPABASE_URL e SUPABASE_SERVICE_ROLE_KEY"⟩, st) ∧
    list_profiles env status search st =
      (.error ⟨500, "Configure SUPABASE_URL e SUPABASE_SERVICE_ROLE_KEY"⟩, st) ∧
    approve env i e st =
      (.error ⟨500, "Configure SUPABASE_URL e SUPABASE_SERVICE_ROLE_KEY"⟩, st) ∧
    block env i e st =
      (.error ⟨500, "Configure SUPABASE_URL e SUPABASE_SERVICE_ROLE_KEY"⟩, st) ∧
    delete_profile env i e st =
      (.error ⟨500, "Configure SUPABASE_URL e SUPABASE_SERVICE_ROLE_KEY"⟩, st) := by
  have hgs : get_supabase env =
      .error ⟨500, "Configure SUPABASE_URL e SUPABASE_SERVICE_ROLE_KEY"⟩ := by
    rcases h with h | h <;> simp [get_supabase, h]
  refine ⟨?_, ?_, ?_, ?_, ?_⟩ <;>
    simp [register, list_profiles, approve, block, delete_profile, updateStatusOp, hgs]

/-- Witness for C9 at a concrete unconfigured environment. -/
theorem config_missing_500_witness :
    register envBad regAna stEmpty =
      (.error ⟨500, "Configure SUPABASE_URL e SUPABASE_SERVICE_ROLE_KEY"⟩, stEmpty) ∧
    list_profiles envBad (some "all") none stEmpty =
      (.error ⟨500, "Configure SUPABASE_URL e SUPABASE_SERVICE_ROLE_KEY"⟩, stEmpty) ∧
    approve envBad (some "uid-0") none stEmpty =
      (.error ⟨500, "Configure SUPABASE_URL e SUPABASE_SERVICE_ROLE_KEY"⟩, stEmpty) ∧
    block envBad (some "uid-0") none stEmpty =
      (.error ⟨500, "Configure SUPABASE_URL e SUPABASE_SERVICE_ROLE_KEY"⟩, stEmpty) ∧
    delete_profile envBad (some "uid-0") none stEmpty =
      (.error ⟨500, "Configure SUPABASE_URL e SUPABASE_SERVICE_ROLE_KEY"⟩, stEmpty) :=
  config_missing_500 envBad stEmpty regAna (some "all") none (some "uid-0") none
    (Or.inl rfl)

/-! ## C4 — write operations with neither id nor email return 400 untouched -/

/-- C4: with the service configured, `approve`, `block` and `delete_profile`
called with both `id` and `email` absent return a 400 `HTTPException` and
leave the service state untouched: no row is mutated or deleted. -/
theorem missing_identifier_400 (env : Env) (st : SupabaseState)
    (hcfg : get_supabase env = .ok ()) :
    approve env none none st = (.error ⟨400, "Informe id ou email para aprovar."⟩, st) ∧
    block env none none st = (.error ⟨400, "Informe id ou email para bloquear."⟩, st) ∧
    delete_profile env none none st =
      (.error ⟨400, "Informe id ou email para excluir."⟩, st) := by
  refine ⟨?_, ?_, ?_⟩ <;>
    simp [approve, block, delete_profile, updateStatusOp, hcfg, truthy]

/-- Witness for C4 at a concrete configured environment. -/
theorem missing_identifier_400_witness :
    approve envOk none none stEmpty =
      (.error ⟨400, "Informe id ou email para aprovar."⟩, stEmpty) ∧
    block envOk none none stEmpty =
      (.error ⟨400, "Informe id ou email para bloquear."⟩, stEmpty) ∧
    delete_profile envOk none none stEmpty =
      (.error ⟨400, "Informe id ou email para excluir."⟩, stEmpty) :=
  missing_identifier_400 envOk stEmpty rfl

/-! ## Helper lemmas on the handlers -/

/-- A truthy/truthy case split turns the id/email guard off when at least one
identifier is supplied. -/
lemma guard_off {i e : Option String} (hval : (truthy i || truthy e) = true) :
    (!truthy i && !truthy e) = false := by
  cases h1 : truthy i <;> cases h2 : truthy e <;> simp_all

/-- Behaviour of `updateStatusOp` once configured and given an identifier:
the matched rows receive the new status and are returned. -/
lemma updateStatusOp_ok (s m : String) (env : Env) (i e : Option String)
    (st : SupabaseState) (hcfg : get_supabase env = .ok ())
    (hval : (truthy i || truthy e) = true) :
    updateStatusOp s m env i e st =
      (.ok ((st.profiles.filter (matchesReq i e)).map (setStatus s)),
       { st with profiles :=
          st.profiles.map (fun r => if matchesReq i e r then setStatus s r else r) }) := by
  simp [updateStatusOp, hcfg, guard_off hval]

/-- Behaviour of `delete_profile` once configured, given an identifier, and
with a non-raising id resolution: matched rows are removed and returned, and
the profiles of the final state do not depend on the auth-deletion step. -/
lemma delete_profile_ok (env : Env) (i e : Option String) (st : SupabaseState)
    (uidOpt : Option String) (hcfg : get_supabase env = .ok ())
    (hval : (truthy i || truthy e) = true)
    (hres : resolveUserId i e st = .ok uidOpt) :
    (delete_profile env i e st).1 = .ok (st.profiles.filter (matchesReq i e)) ∧
    (delete_profile env i e st).2.profiles =
      st.profiles.filter (fun r => !matchesReq i e r) := by
  simp only [delete_profile, hcfg, guard_off hval, Bool.false_eq_true, if_false, hres]
  constructor
  · trivial
  · split
    · split <;> rfl
    · rfl

/-- When `id` is truthy, or the email filter selects no row, the resolution
step of `delete_profile` yields `payload.id` without raising. -/
lemma resolveUserId_of_no_email_row (i e : Option String) (st : SupabaseState)
    (h : truthy i = true ∨ st.profiles.filter (fun r => r.email == optVal e) = []) :
    resolveUserId i e st = .ok i := by
  unfold resolveUserId
  rcases h with h | h
  · rw [h]; rfl
  · cases hi : truthy i
    · cases hv : truthy e
      · rfl
      · rw [h]; rfl
    · rfl

/-! ## C2 — write operations on no matching row succeed with an empty set -/

/-- C2: with the service configured and a valid identifier that matches no
stored row, `approve`, `block` and `delete_profile` each succeed with an
empty result set and leave the profile rows unchanged; moreover, when an id
is given, a repeated `delete_profile` on the state left by a first
`delete_profile` again returns an empty `deleted` list rather than an
error. -/
theorem no_match_empty_success (env : Env) (i e : Option String) (st : SupabaseState)
    (hcfg : get_supabase env = .ok ())
    (hval : (truthy i || truthy e) = true)
    (hnone : st.profiles.all (fun r => !matchesReq i e r) = true) :
    (approve env i e st).1 = .ok [] ∧ (approve env i e st).2.profiles = st.profiles ∧
    (block env i e st).1 = .ok [] ∧ (block env i e st).2.profiles = st.profiles ∧
    (delete_profile env i e st).1 = .ok [] ∧
    (delete_profile env i e st).2.profiles = st.profiles ∧
    (truthy i = true →
      (delete_profile env i e (delete_profile env i e st).2).1 = .ok []) := by
  have hmem : ∀ r ∈ st.profiles, matchesReq i e r = false := by
    intro r hr
    have := List.all_eq_true.mp hnone r hr
    simpa using this
  have hfil : st.profiles.filter (matchesReq i e) = [] :=
    List.filter_eq_nil_iff.mpr (by intro a ha; simp [hmem a ha])
  have hkeep : st.profiles.filter (fun r => !matchesReq i e r) = st.profiles :=
    List.filter_eq_self.mpr (by intro a ha; simp [hmem a ha])
  have hemail : truthy i = true ∨
      st.profiles.filter (fun r => r.email == optVal e) = [] := by
    cases hi : truthy i
    · right
      have he : truthy e = true := by
        rw [hi] at hval; simpa using hval
      refine List.filter_eq_nil_iff.mpr ?_
      intro a ha hco
      have hm := hmem a ha
      simp [matchesReq, hi, he] at hm
      simp [hm] at hco
    · exact Or.inl rfl
  have hres : resolveUserId i e st = .ok i :=
    resolveUserId_of_no_email_row i e st hemail
  have hdel := delete_profile_ok env i e st i hcfg hval hres
  have hmapid : st.profiles.map
      (fun r => if matchesReq i e r then setStatus "approved" r else r) = st.profiles := by
    have := List.map_congr_left (l := st.profiles)
      (f := fun r => if matchesReq i e r then setStatus "approved" r else r) (g := id)
      (by intro a ha; simp [hmem a ha])
    simpa using this
  have hmapid2 : st.profiles.map
      (fun r => if matchesReq i e r then setStatus "block" r else r) = st.profiles := by
    have := List.map_congr_left (l := st.profiles)
      (f := fun r => if matchesReq i e r then setStatus "block" r else r) (g := id)
      (by intro a ha; simp [hmem a ha])
    simpa using this
  refine ⟨?_, ?_, ?_, ?_, ?_, ?_, ?_⟩
  · simp [approve, updateStatusOp_ok _ _ _ _ _ _ hcfg hval, hfil]
  · simp [approve, updateStatusOp_ok _ _ _ _ _ _ hcfg hval, hmapid]
  · simp [block, updateStatusOp_ok _ _ _ _ _ _ hcfg hval, hfil]
  · simp [block, updateStatusOp_ok _ _ _ _ _ _ hcfg hval, hmapid2]
  · rw [hdel.1, hfil]
  · rw [hdel.2, hkeep]
  · intro hi
    have hres2 : resolveUserId i e (delete_profile env i e st).2 = .ok i :=
      resolveUserId_of_no_email_row i e _ (Or.inl hi)
    have hdel2 := delete_profile_ok env i e (delete_profile env i e st).2 i hcfg hval hres2
    rw [hdel2.1, hdel.2, hkeep, hfil]

/-- Witness for C2: a configured environment, an id matching no stored row. -/
theorem no_match_empty_success_witness :
    (approve envOk (some "uid-9") none stEmpty).1 = .ok [] ∧
    (approve envOk (some "uid-9") none stEmpty).2.profiles = stEmpty.profiles ∧
    (block envOk (some "uid-9") none stEmpty).1 = .ok [] ∧
    (block envOk (some "uid-9") none stEmpty).2.profiles = stEmpty.profiles ∧
    (delete_profile envOk (some "uid-9") none stEmpty).1 = .ok [] ∧
    (delete_profile envOk (some "uid-9") none stEmpty).2.profiles = stEmpty.profiles ∧
    (delete_profile envOk (some "uid-9") none
      (delete_profile envOk (some "uid-9") none stEmpty).2).1 = .ok [] := by
  have h := no_match_empty_success envOk (some "uid-9") none stEmpty rfl rfl rfl
  exact ⟨h.1, h.2.1, h.2.2.1, h.2.2.2.1, h.2.2.2.2.1, h.2.2.2.2.2.1,
    h.2.2.2.2.2.2 rfl⟩

@[simp] lemma setFails_profiles (st : SupabaseState) (f : List String) :
    (setFails st f).profiles = st.profiles := rfl

/-- The converse of `guard_off`. -/
lemma guard_on {i e : Option String} (h : (!truthy i && !truthy e) = false) :
    (truthy i || truthy e) = true := by
  cases h1 : truthy i <;> cases h2 : truthy e <;> simp_all

/-- Sample profile row for Ana. -/
def pAna : Profile :=
  { id := "uid-0", email := "a@x.com", full_name := "Ana Silva", person_type := "pf",
    country := some "BR", state := some "PE", city := some "Recife",
    cpf_cnpj := some "12345678900", phone_area := some "81", phone_number := some "999",
    device_fingerprint := "f1", status := "pending", created_at := 0 }

/-- Sample profile row for Bob. -/
def pBob : Profile :=
  { id := "uid-1", email := "b@x.com", full_name := "Bob Costa", person_type := "pj",
    country := some "PT", state := none, city := some "Lisboa",
    cpf_cnpj := none, phone_area := none, phone_number := none,
    device_fingerprint := "f2", status := "approved", created_at := 1 }

/-- Sample service state holding Ana and Bob. -/
def stTwo : SupabaseState :=
  ⟨[⟨"uid-0", "a@x.com"⟩, ⟨"uid-1", "b@x.com"⟩], 2, [pAna, pBob], 2, []⟩

/-! ## C3 — profile rows are deleted first; auth-deletion errors are swallowed -/

/-- C3: whenever `delete_profile` answers successfully, the profile rows
matching the id/email filter have been removed from the table and are the
returned `deleted` list; and replacing the auth-deletion failure behaviour by
any other (`f₂`) leaves both the response and the resulting profile table
unchanged — the secondary `auth.admin.delete_user` exception is swallowed and
never propagates to the caller. -/
theorem delete_swallows_auth_failure (env : Env) (i e : Option String)
    (st : SupabaseState) (f₁ f₂ : List String) (ds : List Profile)
    (st' : SupabaseState)
    (hrun : delete_profile env i e (setFails st f₁) = (.ok ds, st')) :
    st'.profiles = st.profiles.filter (fun r => !matchesReq i e r) ∧
    ds = st.profiles.filter (matchesReq i e) ∧
    (delete_profile env i e (setFails st f₂)).1 = .ok ds ∧
    (delete_profile env i e (setFails st f₂)).2.profiles = st'.profiles := by
  cases hgs : get_supabase env with
  | error ex =>
      rw [delete_profile, hgs] at hrun
      simp at hrun
  | ok v =>
      cases v
      cases hguard : (!truthy i && !truthy e) with
      | true =>
          rw [delete_profile, hgs] at hrun
          simp only [hguard, if_true] at hrun
          simp at hrun
      | false =>
          have hval := guard_on hguard
          cases hres : resolveUserId i e (setFails st f₁) with
          | error u =>
              rw [delete_profile, hgs] at hrun
              simp only [hguard, Bool.false_eq_true, if_false, hres] at hrun
              simp at hrun
          | ok uid =>
              have hok := delete_profile_ok env i e (setFails st f₁) uid hgs hval hres
              have hres₂ : resolveUserId i e (setFails st f₂) = .ok uid := hres
              have hok₂ := delete_profile_ok env i e (setFails st f₂) uid hgs hval hres₂
              have h1 : (delete_profile env i e (setFails st f₁)).1 = .ok ds := by
                rw [hrun]
              have h2 : (delete_profile env i e (setFails st f₁)).2 = st' := by
                rw [hrun]
              have hds : ds = st.profiles.filter (matchesReq i e) := by
                have := hok.1
                rw [h1] at this
                simpa using this
              have hpr : st'.profiles = st.profiles.filter (fun r => !matchesReq i e r) := by
                rw [← h2]
                simpa using hok.2
              refine ⟨hpr, hds, ?_, ?_⟩
              · rw [hok₂.1, setFails_profiles, hds]
              · rw [hok₂.2, setFails_profiles, hpr]

/-- Witness for C3: deleting Ana by id succeeds; under `f₂` the
auth-deletion of `uid-0` raises and is swallowed, with identical response
and profile table. -/
theorem delete_swallows_auth_failure_witness :
    (⟨[⟨"uid-1", "b@x.com"⟩], 2, [pBob], 2, []⟩ : SupabaseState).profiles =
      stTwo.profiles.filter (fun r => !matchesReq (some "uid-0") none r) ∧
    [pAna] = stTwo.profiles.filter (matchesReq (some "uid-0") none) ∧
    (delete_profile envOk (some "uid-0") none (setFails stTwo ["uid-0"])).1 =
      .ok [pAna] ∧
    (delete_profile envOk (some "uid-0") none (setFails stTwo ["uid-0"])).2.profiles =
      (⟨[⟨"uid-1", "b@x.com"⟩], 2, [pBob], 2, []⟩ : SupabaseState).profiles :=
  delete_swallows_auth_failure envOk (some "uid-0") none stTwo [] ["uid-0"]
    [pAna] ⟨[⟨"uid-1", "b@x.com"⟩], 2, [pBob], 2, []⟩ rfl

/-! ## C7 — approve/block update exactly the AND-matched rows -/

/-- `matchesReq` written with the two conditions as explicit conjuncts. -/
lemma matchesReq_eq (i e : Option String) (r : Profile) :
    matchesReq i e r =
      ((!truthy i || r.id == optVal i) && (!truthy e || r.email == optVal e)) := by
  unfold matchesReq
  cases truthy i <;> cases truthy e <;> simp

/-- C7: with the service configured and at least one identifier supplied,
`approve` (resp. `block`) sets `status` to `"approved"` (resp. `"block"`) on
exactly the rows satisfying the conjunction of the id condition and the email
condition (AND, not OR), leaves every other row unchanged, and returns the
updated rows. -/
theorem approve_block_matching_and (env : Env) (i e : Option String)
    (st : SupabaseState) (hcfg : get_supabase env = .ok ())
    (hval : (truthy i || truthy e) = true) :
    approve env i e st =
      (.ok ((st.profiles.filter (fun r =>
          (!truthy i || r.id == optVal i) && (!truthy e || r.email == optVal e))).map
            (fun r => { r with status := "approved" })),
       { st with profiles := st.profiles.map (fun r =>
          if (!truthy i || r.id == optVal i) && (!truthy e || r.email == optVal e) then
            { r with status := "approved" } else r) }) ∧
    block env i e st =
      (.ok ((st.profiles.filter (fun r =>
          (!truthy i || r.id == optVal i) && (!truthy e || r.email == optVal e))).map
            (fun r => { r with status := "block" })),
       { st with profiles := st.profiles.map (fun r =>
          if (!truthy i || r.id == optVal i) && (!truthy e || r.email == optVal e) then
            { r with status := "block" } else r) }) := by
  have hfun : matchesReq i e = fun r =>
      ((!truthy i || r.id == optVal i) && (!truthy e || r.email == optVal e)) :=
    funext (matchesReq_eq i e)
  constructor
  · rw [approve, updateStatusOp_ok _ _ _ _ _ _ hcfg hval, hfun]
    rfl
  · rw [block, updateStatusOp_ok _ _ _ _ _ _ hcfg hval, hfun]
    rfl

/-- Witness for C7 at the two-row sample state, filtering by email only. -/
theorem approve_block_matching_and_witness :
    approve envOk none (some "a@x.com") stTwo =
      (.ok ((stTwo.profiles.filter (fun r =>
          (!truthy none || r.id == optVal none) &&
            (!truthy (some "a@x.com") || r.email == optVal (some "a@x.com")))).map
            (fun r => { r with status := "approved" })),
       { stTwo with profiles := stTwo.profiles.map (fun r =>
          if (!truthy none || r.id == optVal none) &&
              (!truthy (some "a@x.com") || r.email == optVal (some "a@x.com")) then
            { r with status := "approved" } else r) }) ∧
    block envOk none (some "a@x.com") stTwo =
      (.ok ((stTwo.profiles.filter (fun r =>
          (!truthy none || r.id == optVal none) &&
            (!truthy (some "a@x.com") || r.email == optVal (some "a@x.com")))).map
            (fun r => { r with status := "block" })),
       { stTwo with profiles := stTwo.profiles.map (fun r =>
          if (!truthy none || r.id == optVal none) &&
              (!truthy (some "a@x.com") || r.email == optVal (some "a@x.com")) then
            { r with status := "block" } else r) }) :=
  approve_block_matching_and envOk none (some "a@x.com") stTwo rfl rfl

/-! ## C5 — ordering and status-filter semantics of `list_profiles` -/

/-- A `Sorted createdLE` list passes the boolean ascending-`created_at`
check. -/
lemma sortedByCreated_of_sorted : ∀ {l : List Profile},
    List.Sorted createdLE l → sortedByCreated l = true := by
  intro l h
  induction l with
  | nil => rfl
  | cons a t ih =>
      cases t with
      | nil => rfl
      | cons b t2 =>
          rcases List.pairwise_cons.mp h with ⟨ha, ht⟩
          have h1 : a.created_at ≤ b.created_at := ha b (by simp)
          have h2 := ih ht
          simp [sortedByCreated, h1, h2]

/-- The accumulated `list_profiles` filter, with the status part written as
the claim states it (no filter when the parameter is empty or equals `all`
case-insensitively; exact equality otherwise). -/
lemma rowKeep_eq_prim (status search : Option String) (r : Profile) :
    rowKeep status search r =
      ((match status with
        | none => true
        | some s =>
            if s.isEmpty || lowerChars s == "all".toList then true
            else r.status == s) &&
       (if truthy search then searchMatch (optVal search) r else true)) := by
  unfold rowKeep statusFilterApplies
  cases status with
  | none => rfl
  | some s =>
      by_cases h1 : s.isEmpty = true
      · simp [h1]
      · by_cases h2 : (lowerChars s == "all".toList) = true
        · simp [h1, h2, optVal]
        · simp [h1, h2, optVal]

/-- C5 (amended): with the service configured, `list_profiles` succeeds
without touching the state; the returned rows are ordered by `created_at`
ascending; and they are exactly (up to that ordering) the stored rows passing
the filters, where the status filter is skipped when the parameter is absent,
empty, or equal to `all` case-insensitively, and otherwise keeps only rows
whose status exactly equals the parameter. -/
theorem list_profiles_ordered_filtered (env : Env) (status search : Option String)
    (st : SupabaseState) (hcfg : get_supabase env = .ok ()) :
    list_profiles env status search st =
      (.ok (respRows (list_profiles env status search st).1), st) ∧
    sortedByCreated (respRows (list_profiles env status search st).1) = true ∧
    (respRows (list_profiles env status search st).1).Perm
      (st.profiles.filter (fun r =>
        (match status with
         | none => true
         | some s =>
             if s.isEmpty || lowerChars s == "all".toList then true
             else r.status == s) &&
        (if truthy search then searchMatch (optVal search) r else true))) := by
  have hlp : list_profiles env status search st =
      (.ok (List.insertionSort createdLE (st.profiles.filter (rowKeep status search))), st) := by
    simp [list_profiles, hcfg]
  have hrows : respRows (list_profiles env status search st).1 =
      List.insertionSort createdLE (st.profiles.filter (rowKeep status search)) := by
    rw [hlp]; rfl
  refine ⟨?_, ?_, ?_⟩
  · rw [hlp]; rfl
  · rw [hrows]
    exact sortedByCreated_of_sorted (List.sorted_insertionSort createdLE _)
  · rw [hrows]
    have hfe : st.profiles.filter (rowKeep status search) =
        st.profiles.filter (fun r =>
          (match status with
           | none => true
           | some s =>
               if s.isEmpty || lowerChars s == "all".toList then true
               else r.status == s) &&
          (if truthy search then searchMatch (optVal search) r else true)) :=
      List.filter_congr (fun r _ => rowKeep_eq_prim status search r)
    rw [← hfe]
    exact List.perm_insertionSort createdLE _

/-- Part of C5's correction: the claim as stated fails for the supplied empty
status parameter `""`: it is neither absent nor `all`, yet the code applies
no status filter (Python truthiness), returning rows whose status is not
`""`. -/
theorem list_profiles_empty_status_counterexample :
    pAna ∈ respRows (list_profiles envOk (some "") none stTwo).1 ∧
    (pAna.status == "") = false := by
  constructor
  · decide
  · rfl

/-- Witness for C5 at a concrete state with a status filter. -/
theorem list_profiles_ordered_filtered_witness :
    list_profiles envOk (some "pending") none stTwo =
      (.ok (respRows (list_profiles envOk (some "pending") none stTwo).1), stTwo) ∧
    sortedByCreated (respRows (list_profiles envOk (some "pending") none stTwo).1) = true ∧
    (respRows (list_profiles envOk (some "pending") none stTwo).1).Perm
      (stTwo.profiles.filter (fun r =>
        (match (some "pending" : Option String) with
         | none => true
         | some s =>
             if s.isEmpty || lowerChars s == "all".toList then true
             else r.status == s) &&
        (if truthy none then searchMatch (optVal none) r else true))) :=
  list_profiles_ordered_filtered envOk (some "pending") none stTwo rfl

/-! ## C6 — search semantics of `list_profiles` -/

/-- The search string occurs case-insensitively as a substring of the
field. -/
def occursCI (search field : String) : Prop :=
  List.IsInfix (lowerChars search) (lowerChars field)

/-- `occursCI` on a nullable field: an absent field contains nothing. -/
def occursCIOpt (search : String) : Option String → Prop
  | none => False
  | some f => occursCI search f

instance (s f : String) : Decidable (occursCI s f) :=
  List.decidableInfix _ _

instance (s : String) (o : Option String) : Decidable (occursCIOpt s o) :=
  match o with
  | none => isFalse (fun h => h)
  | some _ => List.decidableInfix _ _

/-- The boolean substring scan agrees with the infix relation. -/
lemma substrIn_iff_infix (n : List Char) : ∀ h : List Char,
    substrIn n h = true ↔ List.IsInfix n h := by
  intro h
  induction h with
  | nil => simp [substrIn, List.isEmpty_iff, List.infix_nil]
  | cons c t ih =>
      rw [substrIn, Bool.or_eq_true, List.isPrefixOf_iff_prefix, ih,
        List.infix_cons_iff]

/-- `ilike %s%` agrees with `occursCI`. -/
lemma ilikeContains_iff (f s : String) :
    ilikeContains f s = true ↔ occursCI s f :=
  substrIn_iff_infix (lowerChars s) (lowerChars f)

/-- `ilike` on a nullable column agrees with `occursCIOpt`. -/
lemma ilikeOpt_iff (s : String) (o : Option String) :
    ilikeOpt o s = true ↔ occursCIOpt s o := by
  cases o with
  | none => simp [ilikeOpt, occursCIOpt]
  | some f => exact ilikeContains_iff f s

/-- The four-field `or_` filter agrees with the four-field disjunction. -/
lemma searchMatch_iff (s : String) (r : Profile) :
    searchMatch s r = true ↔
      (occursCI s r.full_name ∨ occursCI s r.email ∨
        occursCIOpt s r.cpf_cnpj ∨ occursCIOpt s r.city) := by
  simp [searchMatch, ilikeContains_iff, ilikeOpt_iff, or_assoc]

/-- The full row filter with a supplied search string, as the claim states
it. -/
lemma rowKeep_search_iff (status : Option String) (s : String) (r : Profile) :
    rowKeep status (some s) r = true ↔
      ((statusFilterApplies status = true → (r.status == optVal status) = true) ∧
       (occursCI s r.full_name ∨ occursCI s r.email ∨
         occursCIOpt s r.cpf_cnpj ∨ occursCIOpt s r.city)) := by
  unfold rowKeep
  rw [Bool.and_eq_true]
  apply and_congr
  · cases h : statusFilterApplies status <;> simp [h]
  · cases hs : truthy (some s) with
    | true =>
        exact searchMatch_iff s r
    | false =>
        have hempty : s = "" := by
          unfold truthy at hs
          exact (String.isEmpty_iff s).mp (by simpa using hs)
        subst hempty
        exact ⟨fun _ => Or.inl List.nil_infix, fun _ => rfl⟩

/-- C6: for every supplied search string, a row is returned by
`list_profiles` exactly when it is stored, passes the status filter, and the
search string occurs case-insensitively as a substring of at least one of
`full_name`, `email`, `cpf_cnpj`, `city`. -/
theorem list_profiles_search_membership (env : Env) (status : Option String)
    (s : String) (st : SupabaseState) (r : Profile)
    (hcfg : get_supabase env = .ok ()) :
    r ∈ respRows (list_profiles env status (some s) st).1 ↔
      (r ∈ st.profiles ∧
        (statusFilterApplies status = true → (r.status == optVal status) = true) ∧
        (occursCI s r.full_name ∨ occursCI s r.email ∨
          occursCIOpt s r.cpf_cnpj ∨ occursCIOpt s r.city)) := by
  have hrows : respRows (list_profiles env status (some s) st).1 =
      List.insertionSort createdLE (st.profiles.filter (rowKeep status (some s))) := by
    simp [list_profiles, hcfg, respRows]
  rw [hrows, List.mem_insertionSort, List.mem_filter, and_congr_right_iff]
  intro _
  exact rowKeep_search_iff status s r

/-- Witness for C6: the search string `SIL` case-insensitively matches Ana's
`full_name` and Ana is returned. -/
theorem list_profiles_search_membership_witness :
    pAna ∈ respRows (list_profiles envOk none (some "SIL") stTwo).1 :=
  (list_profiles_search_membership envOk none "SIL" stTwo pAna rfl).mpr
    ⟨by decide, by decide, Or.inl (by decide)⟩

/-! ## C1 — re-registering an email keeps the user id and resets the status -/

/-- `upsert` never touches the auth accounts. -/
lemma upsertProfile_accounts (st : SupabaseState) (p : Registration) (u : String) :
    (upsertProfile st p u).2.accounts = st.accounts := by
  unfold upsertProfile
  split <;> rfl

/-- The row written by the upsert of `register` always carries status
`"pending"`. -/
lemma upsertProfile_row_status (st : SupabaseState) (p : Registration) (u : String) :
    (upsertProfile st p u).1.status = "pending" := by
  unfold upsertProfile
  split <;> rfl

/-- Auth lookup only depends on the accounts. -/
lemma getUserByEmail_eq_of_accounts (st₁ st₂ : SupabaseState) (em : String)
    (h : st₁.accounts = st₂.accounts) :
    getUserByEmail st₁ em = getUserByEmail st₂ em := by
  unfold getUserByEmail
  rw [h]

/-- `register` when the auth account already exists. -/
lemma register_found (env : Env) (p : Registration) (st : SupabaseState)
    (a : AuthAccount) (hcfg : get_supabase env = .ok ())
    (hg : getUserByEmail st p.email = some a) :
    register env p st =
      (.ok ⟨true, a.id, [(upsertProfile st p a.id).1]⟩, (upsertProfile st p a.id).2) := by
  unfold register
  rw [hcfg, hg]

/-- `register` when the auth account is created. -/
lemma register_new (env : Env) (p : Registration) (st : SupabaseState)
    (hcfg : get_supabase env = .ok ())
    (hg : getUserByEmail st p.email = none) :
    register env p st =
      (.ok ⟨true, freshId st.nextId,
        [(upsertProfile (createUser st p.email).2 p (freshId st.nextId)).1]⟩,
       (upsertProfile (createUser st p.email).2 p (freshId st.nextId)).2) := by
  unfold register
  rw [hcfg, hg]
  rfl

/-- After mapping the upsert replacement over rows, every row keyed by the
upserted id carries the freshly written row's `"pending"` status. -/
lemma filter_map_pending (l : List Profile) (nr : Profile) (u : String)
    (hst : nr.status = "pending") :
    ((l.map (fun r => if (r.id == u) = true then nr else r)).filter
      (fun r => r.id == u)).all (fun r => r.status == "pending") = true := by
  rw [List.all_eq_true]
  intro x hx
  rw [List.mem_filter] at hx
  obtain ⟨hmem, hid⟩ := hx
  rw [List.mem_map] at hmem
  obtain ⟨a, _, hax⟩ := hmem
  by_cases h : (a.id == u) = true
  · rw [if_pos h] at hax
    subst hax
    simp [hst]
  · rw [if_neg h] at hax
    subst hax
    exact absurd hid h

/-- After appending the freshly inserted row to a table with no row keyed by
the id, every row keyed by the id carries the `"pending"` status. -/
lemma filter_append_pending (l : List Profile) (nr : Profile) (u : String)
    (hnone : l.find? (fun r => r.id == u) = none)
    (hnr : (nr.id == u) = true) (hst : nr.status = "pending") :
    (((l ++ [nr]).filter (fun r => r.id == u)).all
      (fun r => r.status == "pending")) = true := by
  have hl : l.filter (fun r => r.id == u) = [] :=
    List.filter_eq_nil_iff.mpr (by
      intro a ha h
      exact (List.find?_eq_none.mp hnone a ha) h)
  rw [List.filter_append, hl]
  simp [hnr, hst]

/-- After an upsert keyed by `u`, every row with id `u` has status
`"pending"`. -/
lemma upsert_pending (st : SupabaseState) (p : Registration) (u : String) :
    (((upsertProfile st p u).2.profiles.filter (fun r => r.id == u)).all
      (fun r => r.status == "pending")) = true := by
  cases hf : st.profiles.find? (fun r => r.id == u) with
  | some old =>
      have hp : (upsertProfile st p u).2.profiles =
          st.profiles.map (fun r =>
            if (r.id == u) = true then registrationRow p u old.created_at else r) := by
        unfold upsertProfile
        rw [hf]
      rw [hp]
      exact filter_map_pending st.profiles (registrationRow p u old.created_at) u rfl
  | none =>
      have hp : (upsertProfile st p u).2.profiles =
          st.profiles ++ [registrationRow p u st.nextTime] := by
        unfold upsertProfile
        rw [hf]
      rw [hp]
      exact filter_append_pending st.profiles (registrationRow p u st.nextTime) u hf
        (by simp [registrationRow]) rfl

/-- `updateStatusOp` never touches the auth accounts. -/
lemma updateStatusOp_accounts (s m : String) (env : Env) (i e : Option String)
    (st : SupabaseState) :
    (updateStatusOp s m env i e st).2.accounts = st.accounts := by
  unfold updateStatusOp
  split
  · rfl
  · split <;> rfl

/-- C1: a first `register` of an email yields some user id `u`; after an
arbitrary intervening `approve` or `block`, a second `register` of the same
email returns the same `u`, creates no new auth account, answers with a
profile row whose status is `"pending"`, and leaves every stored row keyed by
`u` with status `"pending"` — even if the intervening admin action had set it
to `"approved"` or `"block"`. -/
theorem register_reregister_pending (env env₂ : Env) (p : Registration)
    (st midSt : SupabaseState) (op : Bool) (i e : Option String) (u : String)
    (hcfg : get_supabase env = .ok ())
    (hu : regUid (register env p st).1 = some u)
    (hmid : midSt = (if op then approve env₂ i e (register env p st).2
                     else block env₂ i e (register env p st).2).2) :
    regUid (register env p midSt).1 = some u ∧
    (register env p midSt).2.accounts = midSt.accounts ∧
    regProfileStatus (register env p midSt).1 = ["pending"] ∧
    ((register env p midSt).2.profiles.filter (fun r => r.id == u)).all
      (fun r => r.status == "pending") = true := by
  have hacc : ∃ acc : AuthAccount,
      getUserByEmail (register env p st).2 p.email = some acc ∧ acc.id = u := by
    cases hg : getUserByEmail st p.email with
    | some a =>
        refine ⟨a, ?_, ?_⟩
        · rw [register_found env p st a hcfg hg]
          rw [getUserByEmail_eq_of_accounts _ st _ (upsertProfile_accounts st p a.id)]
          exact hg
        · rw [register_found env p st a hcfg hg] at hu
          simpa [regUid] using hu
    | none =>
        refine ⟨⟨freshId st.nextId, p.email⟩, ?_, ?_⟩
        · rw [register_new env p st hcfg hg]
          rw [getUserByEmail_eq_of_accounts _ (createUser st p.email).2 _
            (upsertProfile_accounts _ p _)]
          unfold getUserByEmail at hg ⊢
          show (List.find? (fun a : AuthAccount => a.email == p.email)
            (st.accounts ++ [⟨freshId st.nextId, p.email⟩])) =
              some ⟨freshId st.nextId, p.email⟩
          rw [List.find?_append, hg]
          simp
        · rw [register_new env p st hcfg hg] at hu
          simpa [regUid] using hu
  obtain ⟨acc, hga, haccid⟩ := hacc
  have hmacc : midSt.accounts = (register env p st).2.accounts := by
    rw [hmid]
    cases op with
    | false =>
        show (block env₂ i e (register env p st).2).2.accounts = _
        exact updateStatusOp_accounts _ _ env₂ i e _
    | true =>
        show (approve env₂ i e (register env p st).2).2.accounts = _
        exact updateStatusOp_accounts _ _ env₂ i e _
  have hgmid : getUserByEmail midSt p.email = some acc := by
    rw [getUserByEmail_eq_of_accounts midSt (register env p st).2 p.email hmacc]
    exact hga
  have hreg2 := register_found env p midSt acc hcfg hgmid
  refine ⟨?_, ?_, ?_, ?_⟩
  · rw [hreg2]
    simp [regUid, haccid]
  · rw [hreg2]
    exact upsertProfile_accounts midSt p acc.id
  · rw [hreg2]
    simp [regProfileStatus, upsertProfile_row_status]
  · rw [hreg2, ← haccid]
    exact upsert_pending midSt p acc.id

/-- The state after registering Ana and then approving her by email. -/
def midStSample : SupabaseState :=
  (approve envOk none (some "a@x.com") (register envOk regAna stEmpty).2).2

/-- Witness for C1: register Ana, approve her, register her again — same
user id `uid-0`, no new account, status back to `"pending"`. -/
theorem register_reregister_pending_witness :
    regUid (register envOk regAna midStSample).1 = some "uid-0" ∧
    (register envOk regAna midStSample).2.accounts = midStSample.accounts ∧
    regProfileStatus (register envOk regAna midStSample).1 = ["pending"] ∧
    ((register envOk regAna midStSample).2.profiles.filter
      (fun r => r.id == "uid-0")).all (fun r => r.status == "pending") = true :=
  register_reregister_pending envOk envOk regAna stEmpty midStSample true none
    (some "a@x.com") "uid-0" rfl rfl rfl

/-! ## C8 — closed status set and partition of `list_profiles` results -/

/-- Membership of a status string in the closed set. -/
def statusStrOk (s : String) : Bool :=
  s == "pending" || s == "approved" || s == "block"

/-- A row's status lies in the closed set `{pending, approved, block}`. -/
def statusOk (r : Profile) : Bool := statusStrOk r.status

/-- Service states reachable from a state with an empty `profiles` table
through the five operations of the gateway. -/
inductive Reachable : SupabaseState → Prop where
  | init (accounts : List AuthAccount) (nextId : Nat) (nextTime : Nat)
      (fails : List String) : Reachable ⟨accounts, nextId, [], nextTime, fails⟩
  | reg (env : Env) (p : Registration) (st : SupabaseState) :
      Reachable st → Reachable (register env p st).2
  | app (env : Env) (i e : Option String) (st : SupabaseState) :
      Reachable st → Reachable (approve env i e st).2
  | blk (env : Env) (i e : Option String) (st : SupabaseState) :
      Reachable st → Reachable (block env i e st).2
  | del (env : Env) (i e : Option String) (st : SupabaseState) :
      Reachable st → Reachable (delete_profile env i e st).2
  | lst (env : Env) (status search : Option String) (st : SupabaseState) :
      Reachable st → Reachable (list_profiles env status search st).2

/-- The upsert of `register` preserves the closed status set (the written row
is `"pending"`). -/
lemma statusOk_upsert (st : SupabaseState) (p : Registration) (u : String)
    (h : st.profiles.all statusOk = true) :
    (upsertProfile st p u).2.profiles.all statusOk = true := by
  cases hf : st.profiles.find? (fun r => r.id == u) with
  | some old =>
      have hp : (upsertProfile st p u).2.profiles =
          st.profiles.map (fun r =>
            if (r.id == u) = true then registrationRow p u old.created_at else r) := by
        unfold upsertProfile
        rw [hf]
      rw [hp, List.all_eq_true]
      intro x hx
      rw [List.mem_map] at hx
      obtain ⟨a, ha, hax⟩ := hx
      by_cases hid : (a.id == u) = true
      · rw [if_pos hid] at hax
        subst hax
        rfl
      · rw [if_neg hid] at hax
        subst hax
        exact List.all_eq_true.mp h a ha
  | none =>
      have hp : (upsertProfile st p u).2.profiles =
          st.profiles ++ [registrationRow p u st.nextTime] := by
        unfold upsertProfile
        rw [hf]
      rw [hp, List.all_eq_true]
      intro x hx
      rcases List.mem_append.mp hx with h1 | h1
      · exact List.all_eq_true.mp h x h1
      · have hx2 : x = registrationRow p u st.nextTime := by simpa using h1
        subst hx2
        rfl

/-- `register` preserves the closed status set. -/
lemma statusOk_register (env : Env) (p : Registration) (st : SupabaseState)
    (h : st.profiles.all statusOk = true) :
    (register env p st).2.profiles.all statusOk = true := by
  cases hgs : get_supabase env with
  | error ex =>
      have h2 : (register env p st).2 = st := by simp [register, hgs]
      rw [h2]
      exact h
  | ok v =>
      cases v
      cases hg : getUserByEmail st p.email with
      | some a =>
          rw [register_found env p st a hgs hg]
          exact statusOk_upsert st p a.id h
      | none =>
          rw [register_new env p st hgs hg]
          exact statusOk_upsert (createUser st p.email).2 p (freshId st.nextId) h

/-- `updateStatusOp` with a status from the closed set preserves the closed
status set. -/
lemma statusOk_update (s m : String) (env : Env) (i e : Option String)
    (st : SupabaseState) (hs : statusStrOk s = true)
    (h : st.profiles.all statusOk = true) :
    (updateStatusOp s m env i e st).2.profiles.all statusOk = true := by
  cases hgs : get_supabase env with
  | error ex =>
      have h2 : (updateStatusOp s m env i e st).2 = st := by
        simp [updateStatusOp, hgs]
      rw [h2]
      exact h
  | ok v =>
      cases v
      by_cases hguard : (!truthy i && !truthy e) = true
      · have h2 : (updateStatusOp s m env i e st).2 = st := by
          simp [updateStatusOp, hgs, hguard]
        rw [h2]
        exact h
      · have hguard' : (!truthy i && !truthy e) = false := by
          cases hb : (!truthy i && !truthy e)
          · rfl
          · exact absurd hb hguard
        rw [updateStatusOp_ok s m env i e st hgs (guard_on hguard')]
        show ((st.profiles.map
          (fun r => if matchesReq i e r then setStatus s r else r)).all statusOk) = true
        rw [List.all_eq_true]
        intro x hx
        rw [List.mem_map] at hx
        obtain ⟨a, ha, hax⟩ := hx
        by_cases hm : matchesReq i e a = true
        · rw [if_pos hm] at hax
          subst hax
          simpa [statusOk, setStatus] using hs
        · rw [if_neg hm] at hax
          subst hax
          exact List.all_eq_true.mp h a ha

/-- `delete_profile` preserves the closed status set. -/
lemma statusOk_delete (env : Env) (i e : Option String) (st : SupabaseState)
    (h : st.profiles.all statusOk = true) :
    (delete_profile env i e st).2.profiles.all statusOk = true := by
  cases hgs : get_supabase env with
  | error ex =>
      have h2 : (delete_profile env i e st).2 = st := by simp [delete_profile, hgs]
      rw [h2]
      exact h
  | ok v =>
      cases v
      by_cases hguard : (!truthy i && !truthy e) = true
      · have h2 : (delete_profile env i e st).2 = st := by
          simp [delete_profile, hgs, hguard]
        rw [h2]
        exact h
      · have hguard' : (!truthy i && !truthy e) = false := by
          cases hb : (!truthy i && !truthy e)
          · rfl
          · exact absurd hb hguard
        cases hres : resolveUserId i e st with
        | error u =>
            have h2 : (delete_profile env i e st).2 = st := by
              simp [delete_profile, hgs, hguard', hres]
            rw [h2]
            exact h
        | ok uid =>
            rw [(delete_profile_ok env i e st uid hgs (guard_on hguard') hres).2]
            rw [List.all_eq_true]
            intro x hx
            exact List.all_eq_true.mp h x (List.mem_filter.mp hx).1

/-- `list_profiles` returns the state unchanged. -/
lemma list_profiles_state (env : Env) (status search : Option String)
    (st : SupabaseState) : (list_profiles env status search st).2 = st := by
  unfold list_profiles
  split <;> rfl

/-- Every reachable state satisfies the closed status set invariant. -/
lemma statusOk_reachable (st : SupabaseState) (h : Reachable st) :
    st.profiles.all statusOk = true := by
  induction h with
  | init accounts nextId nextTime fails => rfl
  | reg env p st hst ih => exact statusOk_register env p st ih
  | app env i e st hst ih =>
      exact statusOk_update "approved" "Informe id ou email para aprovar." env i e st rfl ih
  | blk env i e st hst ih =>
      exact statusOk_update "block" "Informe id ou email para bloquear." env i e st rfl ih
  | del env i e st hst ih => exact statusOk_delete env i e st ih
  | lst env status search st hst ih =>
      rw [list_profiles_state env status search st]
      exact ih

/-- Rows of a successful `list_profiles` response, unfolded. -/
lemma respRows_list (env : Env) (status search : Option String)
    (st : SupabaseState) (hcfg : get_supabase env = .ok ()) :
    respRows (list_profiles env status search st).1 =
      List.insertionSort createdLE (st.profiles.filter (rowKeep status search)) := by
  simp [list_profiles, hcfg, respRows]

/-- The `all` status parameter filters nothing. -/
lemma rowKeep_all_true (r : Profile) : rowKeep (some "all") none r = true := by
  have h : statusFilterApplies (some "all") = false := by decide
  simp [rowKeep, h, truthy]

/-- An applied status filter with no search keeps exactly the rows with that
status. -/
lemma rowKeep_status_eq (sp : String) (hsp : statusFilterApplies (some sp) = true)
    (r : Profile) : rowKeep (some sp) none r = (r.status == sp) := by
  simp [rowKeep, hsp, truthy, optVal]

/-- Being `approved` already excludes being `pending`. -/
lemma status_and_not_pending (s : String) :
    ((s == "approved") && !(s == "pending")) = (s == "approved") := by
  by_cases h : (s == "approved") = true
  · have hs : s = "approved" := eq_of_beq h
    subst hs
    rfl
  · have hf : (s == "approved") = false := by
      cases hb : (s == "approved")
      · rfl
      · exact absurd hb h
    rw [hf]
    simp

/-- In the closed set, not `approved` and not `pending` means `block`. -/
lemma status_block_of_not (s : String) (hs : statusStrOk s = true) :
    ((!(s == "approved")) && !(s == "pending")) = (s == "block") := by
  unfold statusStrOk at hs
  simp only [Bool.or_eq_true, beq_iff_eq] at hs
  rcases hs with (h | h) | h <;> subst h <;> rfl

/-- Two row lists whose members carry two different fixed statuses have empty
intersection. -/
lemma inter_nil_of_status (L₁ L₂ : List Profile) (s₁ s₂ : String)
    (h1 : ∀ r ∈ L₁, (r.status == s₁) = true)
    (h2 : ∀ r ∈ L₂, (r.status == s₂) = true)
    (hne : s₁ ≠ s₂) : L₁ ∩ L₂ = [] := by
  rw [List.eq_nil_iff_forall_not_mem]
  intro x hx
  rw [List.mem_inter_iff] at hx
  have e1 : x.status = s₁ := eq_of_beq (h1 x hx.1)
  have e2 : x.status = s₂ := eq_of_beq (h2 x hx.2)
  exact hne (by rw [← e1]; exact e2)

/-- Members of a status-filtered `list_profiles` response carry that
status. -/
lemma mem_listProfiles_status (env : Env) (st : SupabaseState) (sp : String)
    (hcfg : get_supabase env = .ok ())
    (hsp : statusFilterApplies (some sp) = true) :
    ∀ r ∈ respRows (list_profiles env (some sp) none st).1, (r.status == sp) = true := by
  intro r hr
  rw [respRows_list env (some sp) none st hcfg, List.mem_insertionSort,
    List.mem_filter] at hr
  have hk := hr.2
  rw [rowKeep_status_eq sp hsp r] at hk
  exact hk

/-- C8: over reachable states, every stored status belongs to the closed set
`{pending, approved, block}`, and `list_profiles` with status `all` is, up to
ordering, the disjoint union of the `pending`, `approved` and `block`
queries, whose pairwise intersections are empty. -/
theorem status_partition (env : Env) (st : SupabaseState)
    (hst : Reachable st) (hcfg : get_supabase env = .ok ()) :
    st.profiles.all statusOk = true ∧
    (respRows (list_profiles env (some "all") none st).1).Perm
      (respRows (list_profiles env (some "pending") none st).1 ++
       respRows (list_profiles env (some "approved") none st).1 ++
       respRows (list_profiles env (some "block") none st).1) ∧
    respRows (list_profiles env (some "pending") none st).1 ∩
      respRows (list_profiles env (some "approved") none st).1 = [] ∧
    respRows (list_profiles env (some "pending") none st).1 ∩
      respRows (list_profiles env (some "block") none st).1 = [] ∧
    respRows (list_profiles env (some "approved") none st).1 ∩
      respRows (list_profiles env (some "block") none st).1 = [] := by
  have hInv : st.profiles.all statusOk = true := statusOk_reachable st hst
  have hmemP := mem_listProfiles_status env st "pending" hcfg (by decide)
  have hmemA := mem_listProfiles_status env st "approved" hcfg (by decide)
  have hmemB := mem_listProfiles_status env st "block" hcfg (by decide)
  refine ⟨hInv, ?_, ?_, ?_, ?_⟩
  · have hA : (respRows (list_profiles env (some "all") none st).1).Perm st.profiles := by
      rw [respRows_list env (some "all") none st hcfg,
        List.filter_eq_self.mpr (fun a _ => rowKeep_all_true a)]
      exact List.perm_insertionSort createdLE st.profiles
    have hLp : (respRows (list_profiles env (some "pending") none st).1).Perm
        (st.profiles.filter (fun r => r.status == "pending")) := by
      rw [respRows_list env (some "pending") none st hcfg,
        List.filter_congr (fun r _ => rowKeep_status_eq "pending" (by decide) r)]
      exact List.perm_insertionSort createdLE _
    have hLa : (respRows (list_profiles env (some "approved") none st).1).Perm
        (st.profiles.filter (fun r => r.status == "approved")) := by
      rw [respRows_list env (some "approved") none st hcfg,
        List.filter_congr (fun r _ => rowKeep_status_eq "approved" (by decide) r)]
      exact List.perm_insertionSort createdLE _
    have hLb : (respRows (list_profiles env (some "block") none st).1).Perm
        (st.profiles.filter (fun r => r.status == "block")) := by
      rw [respRows_list env (some "block") none st hcfg,
        List.filter_congr (fun r _ => rowKeep_status_eq "block" (by decide) r)]
      exact List.perm_insertionSort createdLE _
    have h1 : st.profiles.Perm
        (st.profiles.filter (fun r => r.status == "pending") ++
         st.profiles.filter (fun r => !(r.status == "pending"))) :=
      (List.filter_append_perm _ st.profiles).symm
    have h2 : (st.profiles.filter (fun r => !(r.status == "pending"))).Perm
        ((st.profiles.filter (fun r => !(r.status == "pending"))).filter
            (fun r => r.status == "approved") ++
         (st.profiles.filter (fun r => !(r.status == "pending"))).filter
            (fun r => !(r.status == "approved"))) :=
      (List.filter_append_perm _ _).symm
    have h3 : (st.profiles.filter (fun r => !(r.status == "pending"))).filter
        (fun r => r.status == "approved") =
        st.profiles.filter (fun r => r.status == "approved") := by
      rw [List.filter_filter]
      exact List.filter_congr (fun r _ => status_and_not_pending r.status)
    have h4 : (st.profiles.filter (fun r => !(r.status == "pending"))).filter
        (fun r => !(r.status == "approved")) =
        st.profiles.filter (fun r => r.status == "block") := by
      rw [List.filter_filter]
      exact List.filter_congr
        (fun r hr => status_block_of_not r.status (List.all_eq_true.mp hInv r hr))
    have hPerm : st.profiles.Perm
        (st.profiles.filter (fun r => r.status == "pending") ++
         (st.profiles.filter (fun r => r.status == "approved") ++
          st.profiles.filter (fun r => r.status == "block"))) := by
      refine h1.trans (List.Perm.append (List.Perm.refl _) ?_)
      refine h2.trans ?_
      rw [h3, h4]
    have hsum : (respRows (list_profiles env (some "pending") none st).1 ++
        respRows (list_profiles env (some "approved") none st).1 ++
        respRows (list_profiles env (some "block") none st).1).Perm
        ((st.profiles.filter (fun r => r.status == "pending") ++
          st.profiles.filter (fun r => r.status == "approved")) ++
         st.profiles.filter (fun r => r.status == "block")) :=
      List.Perm.append (List.Perm.append hLp hLa) hLb
    have hP2 : st.profiles.Perm
        ((st.profiles.filter (fun r => r.status == "pending") ++
          st.profiles.filter (fun r => r.status == "approved")) ++
         st.profiles.filter (fun r => r.status == "block")) := by
      rw [List.append_assoc]
      exact hPerm
    exact hA.trans (hP2.trans hsum.symm)
  · exact inter_nil_of_status _ _ "pending" "approved" hmemP hmemA (by decide)
  · exact inter_nil_of_status _ _ "pending" "block" hmemP hmemB (by decide)
  · exact inter_nil_of_status _ _ "approved" "block" hmemA hmemB (by decide)

/-- Witness for C8 at the reachable state obtained by registering Ana and
approving her. -/
theorem status_partition_witness :
    midStSample.profiles.all statusOk = true ∧
    (respRows (list_profiles envOk (some "all") none midStSample).1).Perm
      (respRows (list_profiles envOk (some "pending") none midStSample).1 ++
       respRows (list_profiles envOk (some "approved") none midStSample).1 ++
       respRows (list_profiles envOk (some "block") none midStSample).1) ∧
    respRows (list_profiles envOk (some "pending") none midStSample).1 ∩
      respRows (list_profiles envOk (some "approved") none midStSample).1 = [] ∧
    respRows (list_profiles envOk (some "pending") none midStSample).1 ∩
      respRows (list_profiles envOk (some "block") none midStSample).1 = [] ∧
    respRows (list_profiles envOk (some "approved") none midStSample).1 ∩
      respRows (list_profiles envOk (some "block") none midStSample).1 = [] :=
  status_partition envOk midStSample
    (Reachable.app envOk none (some "a@x.com") (register envOk regAna stEmpty).2
      (Reachable.reg envOk regAna stEmpty (Reachable.init [] 0 0 [])))
    rfl

end CatalogoIPS
